import Mathlib

/-!
Verification of the contacts-service REST handlers (package `service`,
file `service.go`): a shallow embedding of the request validators, the
dynamic SQL construction for the search and partial-update operations,
and the response shaping of the five HTTP handlers.  The data store is
modelled as an oracle passed to each handler: a function mapping the
executed statement (SQL text and bound arguments) to the rows returned
or the rows-affected count.
-/

/-- Decidable equality for `Except`, so that handler outcomes can be
checked on concrete inputs. -/
instance {ε α : Type} [DecidableEq ε] [DecidableEq α] : DecidableEq (Except ε α) := fun a b =>
  match a, b with
  | .ok x, .ok y => decidable_of_iff (x = y) (by simp)
  | .error x, .error y => decidable_of_iff (x = y) (by simp)
  | .ok _, .error _ => isFalse (by simp)
  | .error _, .ok _ => isFalse (by simp)

namespace ContactsService

/-- The `model.Contact` record (`internal/model/model.go`): all fields except
`Id` are nilable pointers; `time.Time` is modelled as an opaque timestamp
string, since the handlers never inspect it. `none` models a nil pointer. -/
structure Contact where
  id : Int
  firstName : Option String
  lastName : Option String
  phone : Option String
  birthday : Option String
deriving DecidableEq, Repr

/-- A value bound as a SQL query parameter.  The handlers bind strings
(name prefixes, limit, offset, id), integers (birthday month and day) and
timestamps (birthday column values). -/
inductive SqlArg where
  | str (s : String)
  | int (n : Int)
  | time (t : String)
deriving DecidableEq, Repr

/-- The JSON responses the handlers produce via `c.IndentedJSON` /
`c.AbortWithStatusJSON`: a status code together with either a contact,
a list of contacts, or a `{"message": ...}` object. -/
inductive Response where
  | okContact (c : Contact)
  | okContacts (cs : List Contact)
  | created (c : Contact)
  | okMessage (msg : String)
  | badRequest (msg : String)
  | notFound (msg : String)
deriving DecidableEq, Repr

/-- HTTP status code of a response. -/
def Response.status : Response → Nat
  | .okContact _ => 200
  | .okContacts _ => 200
  | .okMessage _ => 200
  | .created _ => 201
  | .badRequest _ => 400
  | .notFound _ => 404

/-- `maxInt` from service.go: `int(^uint(0) >> 1)`, the largest 64-bit int. -/
def maxInt : Int := 2 ^ 63 - 1

/-- `strconv.Itoa(maxInt)` on a 64-bit platform, used as the default limit. -/
def maxIntStr : String := "9223372036854775807"

/-- Numeric value of a list of decimal digit characters. -/
def digitsToNat (cs : List Char) : Nat :=
  cs.foldl (fun n c => 10 * n + (c.toNat - 48)) 0

/-- A nonempty all-digit character list, the body of a Go integer literal. -/
def parseDigits (ds : List Char) : Option Nat :=
  if ds = [] then none
  else if ds.all Char.isDigit then some (digitsToNat ds) else none

/-- Model of Go `strconv.Atoi`: an optional sign followed by at least one
decimal digit, with the value required to fit in a signed 64-bit int
(out-of-range input makes `Atoi` return a non-nil error).  Note that a
leading minus sign is accepted: `Atoi` parses signed integers. -/
def atoi (s : String) : Option Int :=
  match s.data with
  | '+' :: rest =>
    match parseDigits rest with
    | some n => if (n : Int) ≤ maxInt then some (n : Int) else none
    | none => none
  | '-' :: rest =>
    match parseDigits rest with
    | some n => if (n : Int) ≤ 2 ^ 63 then some (-(n : Int)) else none
    | none => none
  | rest =>
    match parseDigits rest with
    | some n => if (n : Int) ≤ maxInt then some (n : Int) else none
    | none => none

/-- Model of Go `strings.Cut(s, "-")` on the character list: split at the
first dash, `none` when no dash occurs (Cut's `found == false`). -/
def cutDashList : List Char → Option (List Char × List Char)
  | [] => none
  | c :: rest =>
    if c = '-' then some ([], rest)
    else
      match cutDashList rest with
      | none => none
      | some (pre, post) => some (c :: pre, post)

/-- `strings.Cut(s, "-")` on strings. -/
def cutDash (s : String) : Option (String × String) :=
  match cutDashList s.data with
  | none => none
  | some (pre, post) => some (String.mk pre, String.mk post)

/-- `allowedOrderby` from service.go. -/
def allowedOrderby : List String := ["id", "firstname", "lastname", "phone", "birthday"]

/-- `allowedAscending` from service.go. -/
def allowedAscending : List String := ["true", "false"]

/-- `contains` from service.go: membership of a string in a slice. -/
def contains (slice : List String) (str : String) : Bool :=
  slice.any (fun v => v == str)

/-- The raw query parameters of a `GET /contacts` request as seen through
gin's `c.Query`: an absent URL parameter is the empty string. -/
structure SearchParams where
  firstname : String
  lastname : String
  birthday : String
  limit : String
  offset : String
  orderby : String
  ascending : String
deriving DecidableEq, Repr

/-- `parseNameAndBirthday` from service.go: returns
`(firstname, lastname, bday, bmonth)`; a malformed birthday parameter
aborts with 400 "invalid birthday URL parameter".  An absent birthday
parameter yields `bday = bmonth = 0`. -/
def parseNameAndBirthday (firstname lastname birthday : String) :
    Except Response (String × String × Int × Int) :=
  if birthday != "" then
    match cutDash birthday with
    | none => .error (Response.badRequest "invalid birthday URL parameter")
    | some (before, after) =>
      match atoi before with
      | none => .error (Response.badRequest "invalid birthday URL parameter")
      | some bmonth =>
        match atoi after with
        | none => .error (Response.badRequest "invalid birthday URL parameter")
        | some bday => .ok (firstname, lastname, bday, bmonth)
  else .ok (firstname, lastname, 0, 0)

/-- `parseLimitAndOffset` from service.go: the limit must be a positive
integer when present and defaults to `strconv.Itoa(maxInt)` when absent;
the offset must be a non-negative integer when present and defaults to
"0".  Both are kept as strings and later bound as query parameters. -/
def parseLimitAndOffset (limit offset : String) :
    Except Response (String × String) :=
  if limit != "" then
    match atoi limit with
    | none => .error (Response.badRequest "invalid limit parameter")
    | some limitAsInt =>
      if limitAsInt < 1 then .error (Response.badRequest "invalid limit parameter")
      else
        if offset != "" then
          match atoi offset with
          | none => .error (Response.badRequest "invalid offset parameter")
          | some offsetAsIt =>
            if offsetAsIt < 0 then .error (Response.badRequest "invalid offset parameter")
            else .ok (limit, offset)
        else .ok (limit, "0")
  else
    if offset != "" then
      match atoi offset with
      | none => .error (Response.badRequest "invalid offset parameter")
      | some offsetAsIt =>
        if offsetAsIt < 0 then .error (Response.badRequest "invalid offset parameter")
        else .ok (maxIntStr, offset)
    else .ok (maxIntStr, "0")

/-- `parseOrderbyAndAscending` from service.go: the orderby parameter
defaults to "id" and must be in `allowedOrderby`; the ascending parameter
defaults to "true", must be in `allowedAscending`, and is mapped to the
SQL direction keyword "ASC" or "DESC". -/
def parseOrderbyAndAscending (orderbyRaw ascendingRaw : String) :
    Except Response (String × String) :=
  let orderby := if orderbyRaw == "" then "id" else orderbyRaw
  if !(contains allowedOrderby orderby) then
    .error (Response.badRequest "invalid orderby parameter")
  else
    let ascendingAsString := if ascendingRaw == "" then "true" else ascendingRaw
    if !(contains allowedAscending ascendingAsString) then
      .error (Response.badRequest "invalid ascending parameter")
    else
      .ok (orderby, if ascendingAsString == "true" then "ASC" else "DESC")

/-- The four-way branch of `findContacts` that picks the SQL text and the
bound arguments, reproducing the `fmt.Sprintf` literals of service.go
byte for byte (only the whitelisted `orderby` and the `ascending`
direction keyword are spliced into the text). -/
def findContactsBuild (first last : String) (bmonth bday : Int)
    (limit offset orderby ascending : String) : String × List SqlArg :=
  if ((first != "") || (last != "")) && ((bmonth != 0) || (bday != 0)) then
    ("\n\t\t\tSELECT *\n\t\t\tFROM contacts\n\t\t\tWHERE firstname LIKE ?\n\t\t\t\tAND lastname LIKE ?\n\t\t\t\tAND MONTH(birthday) = ?\n\t\t\t\tAND DAY(birthday) = ?\n\t\t\tORDER BY "
       ++ orderby ++ " " ++ ascending ++ "\n\t\t\tLIMIT ?\n\t\t\tOFFSET ?",
     [SqlArg.str (first ++ "%"), SqlArg.str (last ++ "%"), SqlArg.int bmonth,
      SqlArg.int bday, SqlArg.str limit, SqlArg.str offset])
  else if ((first != "") || (last != "")) && (bmonth == 0) && (bday == 0) then
    ("\n\t\t\tSELECT *\n\t\t\tFROM contacts\n\t\t\tWHERE firstname LIKE ?\n\t\t\t\tAND lastname LIKE ?\n\t\t\tORDER BY "
       ++ orderby ++ " " ++ ascending ++ "\n\t\t\tLIMIT ?\n\t\t\tOFFSET ?",
     [SqlArg.str (first ++ "%"), SqlArg.str (last ++ "%"), SqlArg.str limit,
      SqlArg.str offset])
  else if (first == "") && (last == "") && ((bmonth != 0) || (bday != 0)) then
    ("\n\t\t\tSELECT *\n\t\t\tFROM contacts\n\t\t\tWHERE MONTH(birthday) = ?\n\t\t\t\tAND DAY(birthday) = ?\n\t\t\tORDER BY "
       ++ orderby ++ " " ++ ascending ++ "\n\t\t\tLIMIT ?\n\t\t\tOFFSET ?",
     [SqlArg.int bmonth, SqlArg.int bday, SqlArg.str limit, SqlArg.str offset])
  else
    ("\n\t\t\tSELECT *\n\t\t\tFROM contacts\n\t\t\tORDER BY "
       ++ orderby ++ " " ++ ascending ++ "\n\t\t\tLIMIT ?\n\t\t\tOFFSET ?",
     [SqlArg.str limit, SqlArg.str offset])

/-- The validation stage of `findContacts`: the three parsers run in
sequence, the first failure short-circuiting with its 400 response;
on success the query that will be handed to `db.Select` is returned. -/
def findContactsQuery (p : SearchParams) :
    Except Response (String × List SqlArg) :=
  match parseNameAndBirthday p.firstname p.lastname p.birthday with
  | .error r => .error r
  | .ok (first, last, bday, bmonth) =>
    match parseLimitAndOffset p.limit p.offset with
    | .error r => .error r
    | .ok (limit, offset) =>
      match parseOrderbyAndAscending p.orderby p.ascending with
      | .error r => .error r
      | .ok (orderby, ascending) =>
        .ok (findContactsBuild first last bmonth bday limit offset orderby ascending)

/-- `findContacts` (GET /contacts): validate, build and run the search
query, then shape the response; an empty result list yields 404
"contact not found", a non-empty one yields 200 with the list.
`dbSelect` is the data-store oracle standing for `db.Select`. -/
def findContacts (p : SearchParams)
    (dbSelect : String → List SqlArg → List Contact) : Response :=
  match findContactsQuery p with
  | .error r => r
  | .ok (sql, args) =>
    let contacts := dbSelect sql args
    if contacts.length == 0 then Response.notFound "contact not found"
    else Response.okContacts contacts

/-- `findContactByID` (GET /contacts/:id): the raw id must satisfy
`strconv.Atoi`, otherwise 404 "invalid id parameter" without any store
access; then the row set of `SELECT * FROM contacts WHERE id = ?` decides
between 404 "contact not found" and 200 with the first row.
`selectWhereId` is the data-store oracle for the prepared statement. -/
def findContactByID (id : String) (selectWhereId : String → List Contact) : Response :=
  match atoi id with
  | none => Response.notFound "invalid id parameter"
  | some _ =>
    match selectWhereId id with
    | [] => Response.notFound "contact not found"
    | c :: _ => Response.okContact c

/-- The assignment-clause accumulation of `updateContactByID`: for each
non-nil field of the submitted contact, in the fixed order first name,
last name, phone, birthday, append the value to the argument list and the
column assignment to the SQL text. -/
def updateAssignments (submitted : Contact) : List SqlArg × String :=
  let args : List SqlArg := []
  let sql := "UPDATE contacts SET "
  let (args, sql) :=
    match submitted.firstName with
    | some v => (args ++ [SqlArg.str v], sql ++ "firstname=?, ")
    | none => (args, sql)
  let (args, sql) :=
    match submitted.lastName with
    | some v => (args ++ [SqlArg.str v], sql ++ "lastname=?, ")
    | none => (args, sql)
  let (args, sql) :=
    match submitted.phone with
    | some v => (args ++ [SqlArg.str v], sql ++ "phone=?, ")
    | none => (args, sql)
  let (args, sql) :=
    match submitted.birthday with
    | some v => (args ++ [SqlArg.time v], sql ++ "birthday=?, ")
    | none => (args, sql)
  (args, sql)

/-- The complete UPDATE statement of `updateContactByID` once at least one
field is present: the trailing ", " is cut off, ` WHERE id=?` is appended
and the raw id becomes the final argument.  `none` when no field is
present (the handler aborts before reaching the store). -/
def updateStatement (submitted : Contact) (id : String) :
    Option (String × List SqlArg) :=
  let (args, sql) := updateAssignments submitted
  if args.length == 0 then none
  else some (sql.dropRight 2 ++ " WHERE id=?", args ++ [SqlArg.str id])

/-- `updateContactByID` (PUT /contacts/:id).  The body is `none` when
`c.BindJSON` fails (unparseable JSON) and `some submitted` otherwise.
`dbExec` is the oracle for `db.MustExec` returning the rows-affected
count of the executed UPDATE; `selectWhereId` the oracle for the re-fetch
by id. -/
def updateContactByID (id : String) (body : Option Contact)
    (dbExec : String → List SqlArg → Int)
    (selectWhereId : String → List Contact) : Response :=
  match atoi id with
  | none => Response.notFound "invalid id parameter"
  | some _ =>
    match body with
    | none => Response.badRequest "invalid JSON"
    | some submitted =>
      match updateStatement submitted id with
      | none => Response.badRequest "no values to be updated"
      | some (sql, args) =>
        let rowsAffected := dbExec sql args
        if rowsAffected == 0 then Response.notFound "contact not found"
        else
          match selectWhereId id with
          | [] => Response.notFound "contact not found"
          | c :: _ => Response.okContact c

/-- `deleteContactByID` (DELETE /contacts/:id): id validation as in the
other by-id handlers, then rows-affected 1 of the DELETE means 200
"contact deleted" and anything else 404 "contact not found".
`deleteWhereId` is the oracle for the prepared DELETE statement. -/
def deleteContactByID (id : String) (deleteWhereId : String → Int) : Response :=
  match atoi id with
  | none => Response.notFound "invalid id parameter"
  | some _ =>
    if deleteWhereId id == 1 then Response.okMessage "contact deleted"
    else Response.notFound "contact not found"

/-! ## Compositional views of the generated SQL

The following definitions restate the generated statements as a clause
list plus a renderer, so that theorems can speak about which filter
clauses appear, in which order, and what is text-substituted.  They are
compared against the branch-structured builders above. -/

/-- Join WHERE clauses with the `AND` separator used in the service's
SQL literals. -/
def andChain : List String → String
  | [] => ""
  | [c] => c
  | c :: rest => c ++ "\n\t\t\t\tAND " ++ andChain rest

/-- Render a search query from a list of filter clauses: `SELECT *`,
an optional `WHERE` block of conjoined clauses, then always `ORDER BY`
with the sort column and direction and always `LIMIT`/`OFFSET`. -/
def renderSearchSql (clauses : List String) (orderby ascending : String) : String :=
  "\n\t\t\tSELECT *\n\t\t\tFROM contacts"
    ++ (if clauses.isEmpty then "" else "\n\t\t\tWHERE " ++ andChain clauses)
    ++ "\n\t\t\tORDER BY " ++ orderby ++ " " ++ ascending
    ++ "\n\t\t\tLIMIT ?\n\t\t\tOFFSET ?"

/-- The filter clauses of the executed search query as a function of the
two presence flags: the name clauses come as a pair, and the birthday
month/day clauses come as a pair. -/
def groupClausesB (nameGroup bdayGroup : Bool) : List String :=
  (if nameGroup then ["firstname LIKE ?", "lastname LIKE ?"] else []) ++
  (if bdayGroup then ["MONTH(birthday) = ?", "DAY(birthday) = ?"] else [])

/-- The bound filter values of the executed search query, grouped like
`groupClausesB` (the absent member of a present name group is bound as
the match-all pattern `"%"`). -/
def groupArgsB (nameGroup bdayGroup : Bool) (first last : String)
    (bmonth bday : Int) : List SqlArg :=
  (if nameGroup then [SqlArg.str (first ++ "%"), SqlArg.str (last ++ "%")] else []) ++
  (if bdayGroup then [SqlArg.int bmonth, SqlArg.int bday] else [])

/-- Filter clauses of the query built for the given validated inputs. -/
def groupClauses (first last : String) (bmonth bday : Int) : List String :=
  groupClausesB ((first != "") || (last != "")) ((bmonth != 0) || (bday != 0))

/-- Bound filter values of the query built for the given validated inputs. -/
def groupArgs (first last : String) (bmonth bday : Int) : List SqlArg :=
  groupArgsB ((first != "") || (last != "")) ((bmonth != 0) || (bday != 0))
    first last bmonth bday

/-- Modelled from the claim wording for the search query: a query that
conjunctively ANDs together exactly the filters present in the request
(name prefixes as `value + '%'`), with the month and day clauses present
exactly when the birthday parameter is present. -/
def claimedSearchQuery (first last : String) (birthdayPresent : Bool)
    (bmonth bday : Int) (limit offset orderby ascending : String) :
    String × List SqlArg :=
  (renderSearchSql
     ((if first != "" then ["firstname LIKE ?"] else []) ++
      (if last != "" then ["lastname LIKE ?"] else []) ++
      (if birthdayPresent then ["MONTH(birthday) = ?", "DAY(birthday) = ?"] else []))
     orderby ascending,
   (if first != "" then [SqlArg.str (first ++ "%")] else []) ++
   (if last != "" then [SqlArg.str (last ++ "%")] else []) ++
   (if birthdayPresent then [SqlArg.int bmonth, SqlArg.int bday] else []) ++
   [SqlArg.str limit, SqlArg.str offset])

/-- The present (non-nil) updatable fields of an update request body, in
the fixed column order of the handler, paired with their bound values. -/
def presentAssignments (c : Contact) : List (String × SqlArg) :=
  (match c.firstName with | some v => [("firstname", SqlArg.str v)] | none => []) ++
  (match c.lastName with | some v => [("lastname", SqlArg.str v)] | none => []) ++
  (match c.phone with | some v => [("phone", SqlArg.str v)] | none => []) ++
  (match c.birthday with | some v => [("birthday", SqlArg.time v)] | none => [])

/-- Join strings with the ", " separator of the UPDATE assignment list. -/
def joinComma : List String → String
  | [] => ""
  | [s] => s
  | s :: rest => s ++ ", " ++ joinComma rest

/-- Membership form of the `contains` helper. -/
lemma contains_eq_mem (l : List String) (s : String) :
    contains l s = true ↔ s ∈ l := by
  simp [contains, List.any_eq_true, beq_iff_eq]

/-- The code's four-branch query construction agrees with the grouped
clause-list rendering, for every whitelisted sort column and direction. -/
lemma findContactsBuild_eq_render (first last : String) (bmonth bday : Int)
    (limit offset ob dir : String) (hob : contains allowedOrderby ob = true)
    (hdir : dir = "ASC" ∨ dir = "DESC") :
    findContactsBuild first last bmonth bday limit offset ob dir =
      (renderSearchSql (groupClauses first last bmonth bday) ob dir,
       groupArgs first last bmonth bday ++ [SqlArg.str limit, SqlArg.str offset]) := by
  have hob' : "id" = ob ∨ "firstname" = ob ∨ "lastname" = ob ∨ "phone" = ob ∨
      "birthday" = ob := by
    simpa [contains, allowedOrderby] using hob
  rcases hob' with h | h | h | h | h <;> rcases hdir with h2 | h2 <;> subst h <;> subst h2 <;>
    cases hf : (first == "") <;> cases hl : (last == "") <;>
    cases hm : (bmonth == 0) <;> cases hd : (bday == 0) <;>
      simp [findContactsBuild, groupClauses, groupClausesB, groupArgs, groupArgsB,
        renderSearchSql, andChain, bne, hf, hl, hm, hd]

/-- Inversion for `parseOrderbyAndAscending`: a successful parse yields a
whitelisted column (the raw value, or "id" when absent) and one of the
two direction keywords. -/
lemma parseOrderbyAndAscending_ok (raw asc ob dir : String)
    (h : parseOrderbyAndAscending raw asc = .ok (ob, dir)) :
    contains allowedOrderby ob = true ∧ (dir = "ASC" ∨ dir = "DESC") ∧
      ob = (if raw = "" then "id" else raw) := by
  unfold parseOrderbyAndAscending at h
  dsimp only [] at h
  cases hB : contains allowedOrderby (if raw == "" then "id" else raw) <;>
    rw [hB] at h
  · exact Except.noConfusion h
  · cases hA : contains allowedAscending (if asc == "" then "true" else asc) <;>
      rw [hA] at h
    · exact Except.noConfusion h
    · have h' := Except.ok.inj h
      have hob : (if raw == "" then "id" else raw) = ob := congrArg Prod.fst h'
      have hdir : (if ((if asc == "" then "true" else asc) == "true") = true
          then "ASC" else "DESC") = dir := congrArg Prod.snd h'
      refine ⟨?_, ?_, ?_⟩
      · rw [← hob]; exact hB
      · rw [← hdir]
        by_cases hc : ((if asc == "" then "true" else asc) == "true") = true
        · rw [if_pos hc]; exact Or.inl rfl
        · rw [if_neg hc]; exact Or.inr rfl
      · rw [← hob]
        by_cases hraw : raw = "" <;> simp [hraw]

/-- Inversion for `parseNameAndBirthday`: a successful parse passes the
name parameters through unchanged. -/
lemma parseNameAndBirthday_ok (f l b f' l' : String) (bd bm : Int)
    (h : parseNameAndBirthday f l b = .ok (f', l', bd, bm)) :
    f' = f ∧ l' = l := by
  unfold parseNameAndBirthday at h
  split at h
  · split at h
    · cases h
    · split at h
      · cases h
      · split at h
        · cases h
        · simp only [Except.ok.injEq, Prod.mk.injEq] at h
          exact ⟨h.1.symm, h.2.1.symm⟩
  · simp only [Except.ok.injEq, Prod.mk.injEq] at h
    exact ⟨h.1.symm, h.2.1.symm⟩

/-! ## C1: which filters the executed search query ANDs together -/

/-- **C1** (counterexample): for the validated request with only
`firstname=A` present, the executed query is not the conjunction of
exactly the present filters — it also carries a `lastname LIKE ?` clause,
bound to the match-all pattern `"%"`, although no last-name filter is
present in the request. -/
theorem searchQuery_joins_absent_lastname_filter :
    findContactsQuery ⟨"A", "", "", "", "", "", ""⟩ =
      .ok (findContactsBuild "A" "" 0 0 maxIntStr "0" "id" "ASC") ∧
    findContactsBuild "A" "" 0 0 maxIntStr "0" "id" "ASC" ≠
      claimedSearchQuery "A" "" false 0 0 maxIntStr "0" "id" "ASC" ∧
    findContactsBuild "A" "" 0 0 maxIntStr "0" "id" "ASC" =
      (renderSearchSql ["firstname LIKE ?", "lastname LIKE ?"] "id" "ASC",
       [SqlArg.str "A%", SqlArg.str "%", SqlArg.str maxIntStr, SqlArg.str "0"]) := by
  decide

/-- **C1** (amended): the executed query conjunctively ANDs the filters in
two groups — if either name prefix is present both `firstname LIKE ?` and
`lastname LIKE ?` are applied (the absent one bound to `"%"`), and if the
parsed birthday month or day is nonzero both `MONTH(birthday) = ?` and
`DAY(birthday) = ?` are applied; `ORDER BY` with the validated sort
column and direction and `LIMIT`/`OFFSET` are always applied, so with no
filters present the query degenerates to all rows, sorted and paged. -/
theorem searchQuery_groups_filters (first last : String) (bmonth bday : Int)
    (limit offset ob dir : String) (hob : contains allowedOrderby ob = true)
    (hdir : dir = "ASC" ∨ dir = "DESC") :
    findContactsBuild first last bmonth bday limit offset ob dir =
      (renderSearchSql (groupClauses first last bmonth bday) ob dir,
       groupArgs first last bmonth bday ++ [SqlArg.str limit, SqlArg.str offset]) :=
  findContactsBuild_eq_render first last bmonth bday limit offset ob dir hob hdir

/-- Witness for the amended C1 theorem at a concrete input. -/
theorem searchQuery_groups_filters_witness :
    findContactsBuild "Ji" "" 11 29 "20" "60" "birthday" "DESC" =
      (renderSearchSql (groupClauses "Ji" "" 11 29) "birthday" "DESC",
       groupArgs "Ji" "" 11 29 ++ [SqlArg.str "20", SqlArg.str "60"]) :=
  searchQuery_groups_filters "Ji" "" 11 29 "20" "60" "birthday" "DESC" (by decide)
    (Or.inr rfl)

/-! ## C2: the partial-update statement -/

/-- **C2**: for a valid id and parseable body, the UPDATE statement has an
assignment clause for exactly the present fields, in the fixed order
first name, last name, phone, birthday, with the values appended in that
order; with zero fields present the handler responds 400 "no values to be
updated" whatever the store would answer; otherwise the statement ends
with ` WHERE id=?` and the id is the final argument. -/
theorem updateStatement_fields_in_order (submitted : Contact) (id : String)
    (hid : atoi id ≠ none) :
    updateStatement submitted id =
      (if presentAssignments submitted = [] then none
       else some
         ("UPDATE contacts SET " ++
            joinComma ((presentAssignments submitted).map (fun a => a.1 ++ "=?")) ++
            " WHERE id=?",
          (presentAssignments submitted).map Prod.snd ++ [SqlArg.str id])) ∧
    (presentAssignments submitted = [] →
      ∀ (dbExec : String → List SqlArg → Int) (sel : String → List Contact),
        updateContactByID id (some submitted) dbExec sel =
          Response.badRequest "no values to be updated") := by
  obtain ⟨i, f, l, p, b⟩ := submitted
  obtain ⟨n, hn⟩ := Option.ne_none_iff_exists'.mp hid
  cases f <;> cases l <;> cases p <;> cases b <;>
    refine ⟨rfl, fun h dbExec sel => ?_⟩ <;>
    first
      | exact absurd h (List.cons_ne_nil _ _)
      | simp [updateContactByID, hn, updateStatement, updateAssignments]

/-- Witness for the C2 theorem at a concrete input. -/
theorem updateStatement_fields_in_order_witness :
    updateStatement ⟨0, some "Hans", none, some "0815", none⟩ "56" =
      (if presentAssignments ⟨0, some "Hans", none, some "0815", none⟩ = [] then none
       else some
         ("UPDATE contacts SET " ++
            joinComma ((presentAssignments
                ⟨0, some "Hans", none, some "0815", none⟩).map (fun a => a.1 ++ "=?")) ++
            " WHERE id=?",
          (presentAssignments ⟨0, some "Hans", none, some "0815", none⟩).map Prod.snd ++
            [SqlArg.str "56"])) ∧
    (presentAssignments ⟨0, some "Hans", none, some "0815", none⟩ = [] →
      ∀ (dbExec : String → List SqlArg → Int) (sel : String → List Contact),
        updateContactByID "56" (some ⟨0, some "Hans", none, some "0815", none⟩) dbExec sel =
          Response.badRequest "no values to be updated") :=
  updateStatement_fields_in_order ⟨0, some "Hans", none, some "0815", none⟩ "56" (by decide)

/-! ## C3: only the sort column and direction are text-substituted -/

/-- **C3**: every query the search handler executes has SQL text equal to
the fixed template determined by two presence flags with only the
whitelist-validated sort column and the ASC/DESC keyword spliced in,
while every filter value (name prefixes, month, day, limit, offset) is
passed in the bound-argument list. -/
theorem searchSql_text_only_sort_substituted (p : SearchParams) (sql : String)
    (args : List SqlArg) (h : findContactsQuery p = .ok (sql, args)) :
    ∃ nameGroup bdayGroup : Bool, ∃ ob dir : String,
      contains allowedOrderby ob = true ∧ (dir = "ASC" ∨ dir = "DESC") ∧
      sql = renderSearchSql (groupClausesB nameGroup bdayGroup) ob dir ∧
      ∃ (bmonth bday : Int) (limit offset : String),
        args = groupArgsB nameGroup bdayGroup p.firstname p.lastname bmonth bday ++
          [SqlArg.str limit, SqlArg.str offset] := by
  unfold findContactsQuery at h
  cases h1 : parseNameAndBirthday p.firstname p.lastname p.birthday with
  | error r => rw [h1] at h; exact Except.noConfusion h
  | ok t =>
    rw [h1] at h
    obtain ⟨first, last, bd, bm⟩ := t
    cases h2 : parseLimitAndOffset p.limit p.offset with
    | error r => rw [h2] at h; exact Except.noConfusion h
    | ok t2 =>
      rw [h2] at h
      obtain ⟨limit, offset⟩ := t2
      cases h3 : parseOrderbyAndAscending p.orderby p.ascending with
      | error r => rw [h3] at h; exact Except.noConfusion h
      | ok t3 =>
        rw [h3] at h
        obtain ⟨ob, dir⟩ := t3
        obtain ⟨hob, hdir, -⟩ :=
          parseOrderbyAndAscending_ok p.orderby p.ascending ob dir h3
        obtain ⟨hf, hl⟩ :=
          parseNameAndBirthday_ok p.firstname p.lastname p.birthday first last bd bm h1
        subst hf
        subst hl
        have hq := Except.ok.inj h
        rw [findContactsBuild_eq_render p.firstname p.lastname bm bd limit offset
          ob dir hob hdir] at hq
        refine ⟨(p.firstname != "") || (p.lastname != ""), (bm != 0) || (bd != 0),
          ob, dir, hob, hdir, (congrArg Prod.fst hq).symm,
          bm, bd, limit, offset, (congrArg Prod.snd hq).symm⟩

set_option maxRecDepth 4000 in
/-- Witness for the C3 theorem at a concrete input. -/
theorem searchSql_text_only_sort_substituted_witness :
    ∃ nameGroup bdayGroup : Bool, ∃ ob dir : String,
      contains allowedOrderby ob = true ∧ (dir = "ASC" ∨ dir = "DESC") ∧
      (findContactsBuild "Ji" "" 11 29 "20" "60" "birthday" "DESC").1 =
        renderSearchSql (groupClausesB nameGroup bdayGroup) ob dir ∧
      ∃ (bmonth bday : Int) (limit offset : String),
        (findContactsBuild "Ji" "" 11 29 "20" "60" "birthday" "DESC").2 =
          groupArgsB nameGroup bdayGroup "Ji" "" bmonth bday ++
            [SqlArg.str limit, SqlArg.str offset] := by
  have h := searchSql_text_only_sort_substituted
    ⟨"Ji", "", "11-29", "20", "60", "birthday", "false"⟩
    (findContactsBuild "Ji" "" 11 29 "20" "60" "birthday" "DESC").1
    (findContactsBuild "Ji" "" 11 29 "20" "60" "birthday" "DESC").2 (by decide)
  simpa using h

/-! ## C4: PUT with an empty update set -/

/-- **C4** (counterexample): a PUT whose id does not parse gets 404
"invalid id parameter" even when the body contains zero updatable fields —
the id check runs before the body is read, so the claimed
"400 for every id" fails for a malformed id. -/
theorem updatePut_malformed_id_zero_fields_is_404 :
    updateContactByID "abc" (some ⟨0, none, none, none, none⟩)
        (fun _ _ => 0) (fun _ => []) = Response.notFound "invalid id parameter" ∧
    (Response.notFound "invalid id parameter").status = 404 := by decide

/-- **C4** (amended): for every PUT whose id parses under `strconv.Atoi`
and whose body contains zero updatable fields, the response is 400
"no values to be updated", for any store behaviour — in particular
whether or not a contact with that id exists. -/
theorem updatePut_zero_fields_400_when_id_parses (id : String) (hid : atoi id ≠ none)
    (submitted : Contact)
    (hz : submitted.firstName = none ∧ submitted.lastName = none ∧
      submitted.phone = none ∧ submitted.birthday = none)
    (dbExec : String → List SqlArg → Int) (sel : String → List Contact) :
    updateContactByID id (some submitted) dbExec sel =
      Response.badRequest "no values to be updated" := by
  obtain ⟨n, hn⟩ := Option.ne_none_iff_exists'.mp hid
  obtain ⟨i, f, l, p, b⟩ := submitted
  obtain ⟨h1, h2, h3, h4⟩ := hz
  dsimp only at h1 h2 h3 h4
  subst h1
  subst h2
  subst h3
  subst h4
  simp [updateContactByID, hn, updateStatement, updateAssignments]

/-- Witness for the amended C4 theorem at a concrete input. -/
theorem updatePut_zero_fields_400_witness :
    updateContactByID "7" (some ⟨0, none, none, none, none⟩)
        (fun _ _ => 1) (fun _ => []) = Response.badRequest "no values to be updated" :=
  updatePut_zero_fields_400_when_id_parses "7" (by decide) ⟨0, none, none, none, none⟩
    ⟨rfl, rfl, rfl, rfl⟩ (fun _ _ => 1) (fun _ => [])

/-! ## C5: the orderby whitelist -/

/-- **C5** (counterexample): the whitelist uses the column names without
underscores — `first_name`, claimed to be accepted, is rejected with 400
"invalid orderby parameter". -/
theorem orderby_underscore_rejected :
    parseOrderbyAndAscending "first_name" "true" =
      .error (Response.badRequest "invalid orderby parameter") ∧
    findContacts ⟨"", "", "", "", "", "first_name", "true"⟩ (fun _ _ => []) =
      Response.badRequest "invalid orderby parameter" ∧
    (Response.badRequest "invalid orderby parameter").status = 400 := by decide

/-- **C5** (amended): orderby validation accepts exactly the whitelist
`id`, `firstname`, `lastname`, `phone`, `birthday`, defaults the sort
column to `id` when the parameter is absent, and rejects every other
value with 400 "invalid orderby parameter". -/
theorem orderby_whitelist_exact (raw asc : String) :
    (parseOrderbyAndAscending raw asc =
        .error (Response.badRequest "invalid orderby parameter") ↔
      ¬ (if raw = "" then "id" else raw) ∈ allowedOrderby) ∧
    (∀ ob dir, parseOrderbyAndAscending raw asc = .ok (ob, dir) →
      ob = (if raw = "" then "id" else raw) ∧ ob ∈ allowedOrderby) := by
  have hif : (if raw == "" then "id" else raw) = (if raw = "" then "id" else raw) := by
    by_cases hraw : raw = "" <;> simp [hraw]
  constructor
  · constructor
    · intro he hmem
      have hc : contains allowedOrderby (if raw == "" then "id" else raw) = true := by
        rw [hif, contains_eq_mem]; exact hmem
      unfold parseOrderbyAndAscending at he
      dsimp only [] at he
      rw [hc] at he
      cases hA : contains allowedAscending (if asc == "" then "true" else asc) <;>
        rw [hA] at he
      · exact absurd (Response.badRequest.inj (Except.error.inj he)) (by decide)
      · exact Except.noConfusion he
    · intro hmem
      have hc : contains allowedOrderby (if raw == "" then "id" else raw) = false := by
        cases hcc : contains allowedOrderby (if raw == "" then "id" else raw)
        · rfl
        · have hm := (contains_eq_mem _ _).mp hcc
          rw [hif] at hm
          exact absurd hm hmem
      unfold parseOrderbyAndAscending
      dsimp only []
      rw [hc]
      rfl
  · intro ob dir hok
    obtain ⟨hc, -, hdef⟩ := parseOrderbyAndAscending_ok raw asc ob dir hok
    exact ⟨hdef, (contains_eq_mem _ _).mp hc⟩

/-- Witness for the amended C5 theorem at a concrete input. -/
theorem orderby_whitelist_exact_witness :
    "phone" = (if ("phone" : String) = "" then "id" else "phone") ∧
      "phone" ∈ allowedOrderby :=
  (orderby_whitelist_exact "phone" "false").2 "phone" "DESC" (by decide)

/-! ## C6: id validation on the by-id handlers -/

/-- **C6** (counterexample): `strconv.Atoi` parses signed integers, so the
id "-5" — not a non-negative integer — passes validation and the store is
consulted: the response depends on the store's answer instead of being an
immediate 404. -/
theorem negative_id_passes_validation :
    atoi "-5" = some (-5) ∧
    findContactByID "-5" (fun _ => [⟨-5, none, none, none, none⟩]) =
      Response.okContact ⟨-5, none, none, none, none⟩ ∧
    findContactByID "-5" (fun _ => []) = Response.notFound "contact not found" := by
  decide

/-- **C6** (amended): for get/update/delete by id, validation fails exactly
when the raw id is not parseable by `strconv.Atoi` as a signed 64-bit
integer (negative ids pass); on failure the handler answers 404
"invalid id parameter" for every store behaviour, and on success the
get-by-id response is a function of the store's row set for that id. -/
theorem id_validation_signed_atoi (id : String) :
    (atoi id = none →
      (∀ sel, findContactByID id sel = Response.notFound "invalid id parameter") ∧
      (∀ body dbExec sel, updateContactByID id body dbExec sel =
        Response.notFound "invalid id parameter") ∧
      (∀ del, deleteContactByID id del = Response.notFound "invalid id parameter")) ∧
    (∀ n, atoi id = some n →
      ∀ sel, findContactByID id sel =
        (match sel id with
         | [] => Response.notFound "contact not found"
         | c :: _ => Response.okContact c)) := by
  constructor
  · intro h
    refine ⟨fun sel => ?_, fun body dbExec sel => ?_, fun del => ?_⟩ <;>
      simp [findContactByID, updateContactByID, deleteContactByID, h]
  · intro n h sel
    simp [findContactByID, h]

/-- Witness for the amended C6 theorem at concrete inputs. -/
theorem id_validation_signed_atoi_witness :
    findContactByID "abc" (fun _ => []) = Response.notFound "invalid id parameter" ∧
    findContactByID "-5" (fun _ => []) = Response.notFound "contact not found" := by
  constructor
  · exact ((id_validation_signed_atoi "abc").1 (by decide)).1 _
  · exact (id_validation_signed_atoi "-5").2 (-5) (by decide) (fun _ => [])

/-! ## C7: the birthday filter -/

/-- **C7** (counterexample): the present, syntactically valid birthday
filter "0-0" parses to month 0 and day 0 and the handler then builds
exactly the query of a request with no birthday parameter — a present,
valid filter that behaves as "no filter". -/
theorem birthday_zero_zero_acts_as_no_filter :
    parseNameAndBirthday "" "" "0-0" = .ok ("", "", 0, 0) ∧
    findContactsQuery ⟨"", "", "0-0", "", "", "", ""⟩ =
      findContactsQuery ⟨"", "", "", "", "", "", ""⟩ := by decide

/-- **C7** (amended): the birthday validation accepts exactly the
non-empty strings that split at the first dash into two
`strconv.Atoi`-parseable parts (no range check on month or day), rejects
every other non-empty value with 400 "invalid birthday URL parameter",
and an absent parameter yields no filter; a present, valid filter behaves
as "no filter" exactly when both parsed parts are zero, and otherwise is
always applied. -/
theorem birthday_filter_validation (f l b : String) :
    parseNameAndBirthday f l "" = .ok (f, l, 0, 0) ∧
    (b ≠ "" → ∀ pre post m d, cutDash b = some (pre, post) → atoi pre = some m →
      atoi post = some d → parseNameAndBirthday f l b = .ok (f, l, d, m)) ∧
    (b ≠ "" → (¬ ∃ pre post m d, cutDash b = some (pre, post) ∧
        atoi pre = some m ∧ atoi post = some d) →
      parseNameAndBirthday f l b =
        .error (Response.badRequest "invalid birthday URL parameter")) ∧
    (∀ bm bd : Int, ∀ limit offset ob dir : String,
      (findContactsBuild f l bm bd limit offset ob dir =
          findContactsBuild f l 0 0 limit offset ob dir ↔ (bm = 0 ∧ bd = 0))) := by
  refine ⟨rfl, ?_, ?_, ?_⟩
  · intro hb pre post m d hcut hm hd
    have hbb : (b != "") = true := bne_iff_ne.mpr hb
    simp [parseNameAndBirthday, hbb, hcut, hm, hd]
  · intro hb hno
    have hbb : (b != "") = true := bne_iff_ne.mpr hb
    cases hcut : cutDash b with
    | none => simp [parseNameAndBirthday, hbb, hcut]
    | some pp =>
      obtain ⟨pre, post⟩ := pp
      cases hm : atoi pre with
      | none => simp [parseNameAndBirthday, hbb, hcut, hm]
      | some m =>
        cases hd : atoi post with
        | none => simp [parseNameAndBirthday, hbb, hcut, hm, hd]
        | some d => exact absurd ⟨pre, post, m, d, hcut, hm, hd⟩ hno
  · intro bm bd limit offset ob dir
    constructor
    · intro h
      by_contra hn
      have hor : ¬ bm = 0 ∨ ¬ bd = 0 := not_and_or.mp hn
      have hcond : ((bm != 0) || (bd != 0)) = true := by
        rcases hor with h' | h' <;> simp [bne_iff_ne, h']
      have hlen := congrArg (fun q => q.2.length) h
      by_cases hf : f = "" <;> by_cases hl : l = "" <;>
        simp [findContactsBuild, hf, hl, hcond] at hlen
    · rintro ⟨hm0, hd0⟩
      subst hm0
      subst hd0
      rfl

/-- Witness for the amended C7 theorem at a concrete input. -/
theorem birthday_filter_validation_witness :
    parseNameAndBirthday "" "" "11-29" = .ok ("", "", 29, 11) :=
  (birthday_filter_validation "" "" "11-29").2.1 (by decide) "11" "29" 11 29
    (by decide) (by decide) (by decide)

/-! ## C8: result shaping of the search handler -/

/-- **C8**: for a request that passes all validation, an empty row set
from the store yields 404 "contact not found", a non-empty row set yields
200 with the list, and a 200 response never carries an empty list. -/
theorem findContacts_empty_404_nonempty_200 (p : SearchParams)
    (sql : String) (args : List SqlArg)
    (h : findContactsQuery p = .ok (sql, args))
    (dbSelect : String → List SqlArg → List Contact) :
    (dbSelect sql args = [] →
      findContacts p dbSelect = Response.notFound "contact not found") ∧
    (dbSelect sql args ≠ [] →
      findContacts p dbSelect = Response.okContacts (dbSelect sql args)) ∧
    (∀ cs, findContacts p dbSelect = Response.okContacts cs → cs ≠ []) := by
  refine ⟨?_, ?_, ?_⟩
  · intro hres
    simp [findContacts, h, hres]
  · intro hres
    simp [findContacts, h, List.length_eq_zero, hres]
  · intro cs hcs hemp
    subst hemp
    cases hres : dbSelect sql args <;>
      simp [findContacts, h, hres] at hcs

set_option maxRecDepth 4000 in
/-- Witness for the C8 theorem at a concrete input. -/
theorem findContacts_empty_404_nonempty_200_witness :
    findContacts ⟨"", "", "", "", "", "", ""⟩
        (fun _ _ => [⟨1, none, none, none, none⟩]) =
      Response.okContacts [⟨1, none, none, none, none⟩] :=
  (findContacts_empty_404_nonempty_200 ⟨"", "", "", "", "", "", ""⟩
    (findContactsBuild "" "" 0 0 maxIntStr "0" "id" "ASC").1
    (findContactsBuild "" "" 0 0 maxIntStr "0" "id" "ASC").2 (by decide)
    (fun _ _ => [⟨1, none, none, none, none⟩])).2.1 (by simp)

/-! ## C9: update followed by re-fetch -/

/-- **C9** (counterexample): with a valid id, a parseable body with one
field and an UPDATE reporting one affected row, an empty re-fetch makes
the handler answer 404 "contact not found" — not 200 with the post-update
record as claimed. -/
theorem update_one_row_refetch_empty_is_404 :
    updateContactByID "5" (some ⟨0, none, none, some "81970", none⟩)
        (fun _ _ => 1) (fun _ => []) = Response.notFound "contact not found" ∧
    (Response.notFound "contact not found").status ≠ 200 := by decide

/-- **C9** (amended): with a valid id, a parseable body and at least one
present field, zero affected rows yield 404 "contact not found";
otherwise the handler re-fetches by id and answers 200 with the fetched
record when the re-fetch returns rows, and 404 when it returns none. -/
theorem update_exec_then_refetch (id : String) (hid : atoi id ≠ none)
    (submitted : Contact) (sql : String) (args : List SqlArg)
    (hstmt : updateStatement submitted id = some (sql, args))
    (dbExec : String → List SqlArg → Int) (sel : String → List Contact) :
    (dbExec sql args = 0 →
      updateContactByID id (some submitted) dbExec sel =
        Response.notFound "contact not found") ∧
    (dbExec sql args ≠ 0 →
      updateContactByID id (some submitted) dbExec sel =
        (match sel id with
         | [] => Response.notFound "contact not found"
         | c :: _ => Response.okContact c)) := by
  obtain ⟨n, hn⟩ := Option.ne_none_iff_exists'.mp hid
  constructor
  · intro hrows
    simp [updateContactByID, hn, hstmt, hrows]
  · intro hrows
    simp [updateContactByID, hn, hstmt, hrows]

/-- Witness for the amended C9 theorem at a concrete input. -/
theorem update_exec_then_refetch_witness :
    updateContactByID "5" (some ⟨0, none, none, some "81970", none⟩)
        (fun _ _ => 1) (fun _ => [⟨5, none, none, some "81970", none⟩]) =
      Response.okContact ⟨5, none, none, some "81970", none⟩ :=
  (update_exec_then_refetch "5" (by decide) ⟨0, none, none, some "81970", none⟩
    "UPDATE contacts SET phone=? WHERE id=?" [SqlArg.str "81970", SqlArg.str "5"]
    (by decide) (fun _ _ => 1) (fun _ => [⟨5, none, none, some "81970", none⟩])).2
    (by decide)

/-! ## C10: modified store but 404 response -/

/-- **C10**: whenever the UPDATE reports at least one affected row and the
subsequent select by id returns no rows, the update handler answers 404
"contact not found" — although the store was already modified, so a
non-2xx PUT response does not imply the stored contact is unchanged. -/
theorem update_rows_affected_but_refetch_empty (id : String) (hid : atoi id ≠ none)
    (submitted : Contact) (sql : String) (args : List SqlArg)
    (hstmt : updateStatement submitted id = some (sql, args))
    (dbExec : String → List SqlArg → Int) (sel : String → List Contact)
    (hrows : 1 ≤ dbExec sql args) (hsel : sel id = []) :
    updateContactByID id (some submitted) dbExec sel =
      Response.notFound "contact not found" := by
  obtain ⟨n, hn⟩ := Option.ne_none_iff_exists'.mp hid
  have hne : dbExec sql args ≠ 0 := by omega
  simp [updateContactByID, hn, hstmt, hne, hsel]

/-- Witness for the C10 theorem at a concrete input. -/
theorem update_rows_affected_but_refetch_empty_witness :
    updateContactByID "6" (some ⟨0, some "Hans", none, none, none⟩)
        (fun _ _ => 1) (fun _ => []) = Response.notFound "contact not found" :=
  update_rows_affected_but_refetch_empty "6" (by decide)
    ⟨0, some "Hans", none, none, none⟩
    "UPDATE contacts SET firstname=? WHERE id=?" [SqlArg.str "Hans", SqlArg.str "6"]
    (by decide) (fun _ _ => 1) (fun _ => []) (by decide) rfl

end ContactsService
